import Mathlib

/-!
Verification of the Glue schema manager script (src/run.py).

The script is a thin wrapper around a remote schema-registry collaborator.
We embed it in two layers:

* Layer 1 embeds each Python method of `GlueSchemaManager` as a function of
  the collaborator call's result (a successful response or a `ClientError`).
  The embedding records the collaborator call the method issues, the method's
  outcome (a returned value, or an exception propagating to the caller), and
  the lines it prints.

* Layer 2 models the external registry collaborator itself from the spec
  (registries, schemas, immutable numbered schema versions with metadata),
  since the collaborator is not part of the repository.  Composite `_run`
  functions thread a registry state through the layer-1 wrappers.
-/

/-- Models the `ClientError` exception raised by the collaborator client.  The
wrapper code only inspects the error code found at `e.response['Error']['Code']`
and prints the exception; the textual rendering of the exception object is
abstracted by its code string. -/
structure ClientError where
  code : String
deriving DecidableEq, Repr

/-- Result of one collaborator call: a successful response of type `α`, or a
`ClientError` raised by the client. -/
inductive GlueResult (α : Type) where
  | ok : α → GlueResult α
  | err : ClientError → GlueResult α
deriving DecidableEq, Repr

/-- Outcome of one wrapper method: the Python function either returns a value
or lets a `ClientError` propagate to its caller. -/
inductive Outcome (α : Type) where
  | ret : α → Outcome α
  | raise : ClientError → Outcome α
deriving DecidableEq, Repr

/-- The metadata key/value pair passed to `put_schema_version_metadata`. -/
structure MetadataKeyValue where
  MetadataKey : String
  MetadataValue : String
deriving DecidableEq, Repr

/-- The collaborator calls issued by src/run.py, with their parameters. -/
inductive GlueCall where
  | createRegistry (registryName : String)
  | createSchema (registryName schemaName dataFormat compatibility schemaDefinition : String)
  | registerSchemaVersion (schemaName registryName schemaDefinition : String)
  | getSchemaVersionLatest (schemaName registryName : String)
  | putSchemaVersionMetadata (schemaName registryName : String) (versionNumber : Nat)
      (kv : MetadataKeyValue)
deriving DecidableEq, Repr

/-- Everything observable about one wrapper method execution: the collaborator
call it issues, its outcome, and the lines it prints. -/
structure MethodResult (α : Type) where
  call : GlueCall
  outcome : Outcome α
  logs : List String
deriving Repr

/-- Renders a client error inside a printed message (abstracted by its code). -/
def errString (e : ClientError) : String := e.code

/-- src/run.py lines 4-18: the constructor stores four configuration strings. -/
structure GlueSchemaManager where
  registry_name : String
  schema_name : String
  data_format : String
  schema_definition : String
deriving DecidableEq, Repr

/-- src/run.py lines 20-31 (`create_registry_if_not_exists`): calls
`create_registry`; an `AlreadyExistsException` error code is swallowed with an
informational print, any other `ClientError` is re-raised. -/
def GlueSchemaManager.create_registry_if_not_exists (m : GlueSchemaManager)
    (r : GlueResult Unit) : MethodResult Unit where
  call := GlueCall.createRegistry m.registry_name
  outcome :=
    match r with
    | GlueResult.ok _ => Outcome.ret ()
    | GlueResult.err e =>
        if e.code = "AlreadyExistsException" then Outcome.ret () else Outcome.raise e
  logs :=
    match r with
    | GlueResult.ok _ => ["Registry \x27" ++ m.registry_name ++ "\x27 created successfully."]
    | GlueResult.err e =>
        if e.code = "AlreadyExistsException" then
          ["Registry \x27" ++ m.registry_name ++ "\x27 already exists."]
        else []

/-- src/run.py lines 33-50 (`create_schema_if_not_exists`): calls
`create_schema` with `Compatibility='FORWARD'`; same error classification as
`create_registry_if_not_exists`. -/
def GlueSchemaManager.create_schema_if_not_exists (m : GlueSchemaManager)
    (r : GlueResult Unit) : MethodResult Unit where
  call := GlueCall.createSchema m.registry_name m.schema_name m.data_format
    "FORWARD" m.schema_definition
  outcome :=
    match r with
    | GlueResult.ok _ => Outcome.ret ()
    | GlueResult.err e =>
        if e.code = "AlreadyExistsException" then Outcome.ret () else Outcome.raise e
  logs :=
    match r with
    | GlueResult.ok _ => ["Schema \x27" ++ m.schema_name ++ "\x27 created successfully."]
    | GlueResult.err e =>
        if e.code = "AlreadyExistsException" then
          ["Schema \x27" ++ m.schema_name ++ "\x27 already exists."]
        else []

/-- src/run.py lines 52-69 (`add_schema_version`): calls
`register_schema_version`; on success returns `response['VersionNumber']`, on
any `ClientError` prints the error and returns `None`. -/
def GlueSchemaManager.add_schema_version (m : GlueSchemaManager)
    (r : GlueResult Nat) : MethodResult (Option Nat) where
  call := GlueCall.registerSchemaVersion m.schema_name m.registry_name m.schema_definition
  outcome :=
    match r with
    | GlueResult.ok n => Outcome.ret (some n)
    | GlueResult.err _ => Outcome.ret none
  logs :=
    match r with
    | GlueResult.ok n => ["Schema version added successfully. Version: " ++ toString n]
    | GlueResult.err e => ["Error adding schema version: " ++ errString e]

/-- src/run.py lines 71-86 (`read_schema`): calls `get_schema_version` with
`SchemaVersionNumber={'LatestVersion': True}`; on success prints a header and
`response['SchemaDefinition']`, on a `ClientError` prints the error.  The
Python function has no `return` statement, so it returns `None` on every
path. -/
def GlueSchemaManager.read_schema (m : GlueSchemaManager)
    (r : GlueResult String) : MethodResult (Option String) where
  call := GlueCall.getSchemaVersionLatest m.schema_name m.registry_name
  outcome :=
    match r with
    | GlueResult.ok _ => Outcome.ret none
    | GlueResult.err _ => Outcome.ret none
  logs :=
    match r with
    | GlueResult.ok d => ["Retrieved schema \x27" ++ m.schema_name ++ "\x27:", d]
    | GlueResult.err e => ["Error reading schema: " ++ errString e]

/-- src/run.py lines 88-103 (`update_schema_version_metadata`): calls
`put_schema_version_metadata` with the given metadata pair; any `ClientError`
is printed and swallowed. -/
def GlueSchemaManager.update_schema_version_metadata (m : GlueSchemaManager)
    (version_number : Nat) (metadata : MetadataKeyValue)
    (r : GlueResult Unit) : MethodResult Unit where
  call := GlueCall.putSchemaVersionMetadata m.schema_name m.registry_name
    version_number metadata
  outcome :=
    match r with
    | GlueResult.ok _ => Outcome.ret ()
    | GlueResult.err _ => Outcome.ret ()
  logs :=
    match r with
    | GlueResult.ok _ => ["Updated metadata for schema version " ++ toString version_number]
    | GlueResult.err e => ["Error updating schema version metadata: " ++ errString e]

/-- src/run.py lines 105-123 (`set_schema_version_checkpoint`): calls
`put_schema_version_metadata` with the fixed pair
`{'MetadataKey': 'Checkpoint', 'MetadataValue': 'true'}`; any `ClientError` is
printed and swallowed. -/
def GlueSchemaManager.set_schema_version_checkpoint (m : GlueSchemaManager)
    (version_number : Nat) (r : GlueResult Unit) : MethodResult Unit where
  call := GlueCall.putSchemaVersionMetadata m.schema_name m.registry_name
    version_number ⟨"Checkpoint", "true"⟩
  outcome :=
    match r with
    | GlueResult.ok _ => Outcome.ret ()
    | GlueResult.err _ => Outcome.ret ()
  logs :=
    match r with
    | GlueResult.ok _ => ["Set schema version " ++ toString version_number ++ " as checkpoint"]
    | GlueResult.err e => ["Error setting schema version checkpoint: " ++ errString e]

/-- Modelled from the spec: a `SchemaVersion` — one immutable, numbered
snapshot of a schema definition inside a registry, with the metadata pairs
attached to it.  The collaborator service is external to the repository; its
data model follows spec section 3. -/
structure SchemaVersion where
  registryName : String
  schemaName : String
  versionNumber : Nat
  definition : String
  metadata : List (String × String)
deriving DecidableEq, Repr

/-- Modelled from the spec: a `SchemaRef` — one schema lineage within a
registry, bound to a data format and a compatibility mode. -/
structure SchemaRef where
  registryName : String
  schemaName : String
  dataFormat : String
  compatibilityMode : String
deriving DecidableEq, Repr

/-- Modelled from the spec: the state of the external registry service — the
registries, schemas and schema versions it holds. -/
structure GlueState where
  registries : List String
  schemas : List SchemaRef
  versions : List SchemaVersion
deriving DecidableEq, Repr

/-- The versions the service holds for one schema lineage. -/
def versionsOf (s : GlueState) (reg sch : String) : List SchemaVersion :=
  s.versions.filter (fun v => v.registryName == reg && v.schemaName == sch)

/-- Largest version number in a list of versions (0 when empty). -/
def maxVersionNumber (l : List SchemaVersion) : Nat :=
  l.foldr (fun v a => max v.versionNumber a) 0

/-- The version with the largest version number, head-biased on ties. -/
def latestVersion : List SchemaVersion → Option SchemaVersion
  | [] => none
  | v :: vs =>
    match latestVersion vs with
    | none => some v
    | some w => if v.versionNumber < w.versionNumber then some w else some v

/-- Whether the service holds a version with the given number for a schema. -/
def hasVersion (s : GlueState) (reg sch : String) (n : Nat) : Bool :=
  (versionsOf s reg sch).any (fun v => v.versionNumber == n)

/-- Whether the service holds a schema with the given names. -/
def hasSchema (s : GlueState) (reg sch : String) : Bool :=
  s.schemas.any (fun t => t.registryName == reg && t.schemaName == sch)

/-- Modelled from the spec: `create_registry` — fails with
`AlreadyExistsException` when the registry name exists, otherwise records it. -/
def GlueState.create_registry (s : GlueState) (name : String) :
    GlueState × GlueResult Unit :=
  if name ∈ s.registries then (s, GlueResult.err ⟨"AlreadyExistsException"⟩)
  else ({ s with registries := name :: s.registries }, GlueResult.ok ())

/-- Modelled from the spec: `create_schema` — fails with
`AlreadyExistsException` when the schema exists in the registry, otherwise
records the schema reference. -/
def GlueState.create_schema (s : GlueState) (reg sch fmt compat defn : String) :
    GlueState × GlueResult Unit :=
  if hasSchema s reg sch then (s, GlueResult.err ⟨"AlreadyExistsException"⟩)
  else ({ s with schemas := ⟨reg, sch, fmt, compat⟩ :: s.schemas }, GlueResult.ok ())

/-- Modelled from the spec: `register_schema_version` — the registry assigns
the next version number (monotonically increasing, not controlled by the
client) and stores one new immutable version; environment failures of this
call are modelled at the call-result layer. -/
def GlueState.register_schema_version (s : GlueState) (reg sch defn : String) :
    GlueState × Nat :=
  let n := maxVersionNumber (versionsOf s reg sch) + 1
  ({ s with versions := ⟨reg, sch, n, defn, []⟩ :: s.versions }, n)

/-- Modelled from the spec: `get_schema_version` with `LatestVersion: True` —
returns the definition of the most recent version, or fails when the schema
has no version. -/
def GlueState.get_schema_version_latest (s : GlueState) (reg sch : String) :
    GlueResult String :=
  match latestVersion (versionsOf s reg sch) with
  | some v => GlueResult.ok v.definition
  | none => GlueResult.err ⟨"EntityNotFoundException"⟩

/-- Modelled from the spec: `put_schema_version_metadata` — attaches the
metadata pair to the targeted version only, or fails with
`EntityNotFoundException` when no such version exists. -/
def GlueState.put_schema_version_metadata (s : GlueState) (reg sch : String)
    (n : Nat) (kv : MetadataKeyValue) : GlueState × GlueResult Unit :=
  if hasVersion s reg sch n then
    ({ s with
        versions := s.versions.map (fun v =>
          if v.registryName == reg && v.schemaName == sch && v.versionNumber == n then
            { v with metadata := (kv.MetadataKey, kv.MetadataValue) :: v.metadata }
          else v) },
      GlueResult.ok ())
  else (s, GlueResult.err ⟨"EntityNotFoundException"⟩)

/-- `create_registry_if_not_exists` run against the modelled service. -/
def GlueSchemaManager.create_registry_run (m : GlueSchemaManager) (s : GlueState) :
    GlueState × MethodResult Unit :=
  let p := s.create_registry m.registry_name
  (p.1, m.create_registry_if_not_exists p.2)

/-- `create_schema_if_not_exists` run against the modelled service. -/
def GlueSchemaManager.create_schema_run (m : GlueSchemaManager) (s : GlueState) :
    GlueState × MethodResult Unit :=
  let p := s.create_schema m.registry_name m.schema_name m.data_format
    "FORWARD" m.schema_definition
  (p.1, m.create_schema_if_not_exists p.2)

/-- `add_schema_version` run against the modelled service. -/
def GlueSchemaManager.add_schema_version_run (m : GlueSchemaManager) (s : GlueState) :
    GlueState × MethodResult (Option Nat) :=
  let p := s.register_schema_version m.registry_name m.schema_name m.schema_definition
  (p.1, m.add_schema_version (GlueResult.ok p.2))

/-- `read_schema` run against the modelled service (reading changes no state). -/
def GlueSchemaManager.read_schema_run (m : GlueSchemaManager) (s : GlueState) :
    MethodResult (Option String) :=
  m.read_schema (s.get_schema_version_latest m.registry_name m.schema_name)

/-- `set_schema_version_checkpoint` run against the modelled service. -/
def GlueSchemaManager.set_schema_version_checkpoint_run (m : GlueSchemaManager)
    (s : GlueState) (version_number : Nat) : GlueState × MethodResult Unit :=
  let p := s.put_schema_version_metadata m.registry_name m.schema_name
    version_number ⟨"Checkpoint", "true"⟩
  (p.1, m.set_schema_version_checkpoint version_number p.2)

/-- `update_schema_version_metadata` run against the modelled service. -/
def GlueSchemaManager.update_schema_version_metadata_run (m : GlueSchemaManager)
    (s : GlueState) (version_number : Nat) (metadata : MetadataKeyValue) :
    GlueState × MethodResult Unit :=
  let p := s.put_schema_version_metadata m.registry_name m.schema_name
    version_number metadata
  (p.1, m.update_schema_version_metadata version_number metadata p.2)

/-- Python truthiness of the `version` value tested by `if version:` in
src/run.py line 159: `None` and `0` are falsy, every other integer is truthy. -/
def pyTruthy : Option Nat → Bool
  | none => false
  | some n => n != 0

/-- One collaborator response for each of the five calls `main` can issue;
`main` is a straight-line script, so each call consumes its dedicated
response. -/
structure GlueEnv where
  createRegistryResult : GlueResult Unit
  createSchemaResult : GlueResult Unit
  registerResult : GlueResult Nat
  getLatestResult : GlueResult String
  putMetadataResult : GlueResult Unit
deriving Repr

/-- Everything observable about one execution of `main`: the collaborator
calls issued in order, the printed lines, the exception that escaped `main`
(if any), and the value of the `version` local once bound. -/
structure MainRun where
  trace : List GlueCall
  logs : List String
  halted : Option ClientError
  version : Option Nat
deriving Repr

/-- src/run.py lines 130-141: the hardcoded configuration of `main`, with the
sample Avro record schema. -/
def mainManager : GlueSchemaManager where
  registry_name := "my-registry"
  schema_name := "my-avro-schema"
  data_format := "AVRO"
  schema_definition := "\x7b\n  \"type\": \"record\",\n  \"name\": \"User\",\n  \"fields\": [\n    \x7b\"name\": \"name\", \"type\": \"string\"\x7d,\n    \x7b\"name\": \"address\", \"type\": [\"null\", \"string\"], \"default\": null\x7d,\n    \x7b\"name\": \"age\", \"type\": \"int\"\x7d\n  ]\n\x7d"

/-- src/run.py lines 125-160 (`main`): runs the five steps in order against
the collaborator responses in `env`.  An exception raised by an `ensure` step
escapes `main` and halts the script; the checkpoint step runs only when
`if version:` is truthy. -/
def Glue_main (env : GlueEnv) : MainRun :=
  let m := mainManager
  let r1 := m.create_registry_if_not_exists env.createRegistryResult
  match r1.outcome with
  | Outcome.raise e => ⟨[r1.call], r1.logs, some e, none⟩
  | Outcome.ret _ =>
    let r2 := m.create_schema_if_not_exists env.createSchemaResult
    match r2.outcome with
    | Outcome.raise e => ⟨[r1.call, r2.call], r1.logs ++ r2.logs, some e, none⟩
    | Outcome.ret _ =>
      let r3 := m.add_schema_version env.registerResult
      let version :=
        match r3.outcome with
        | Outcome.ret v => v
        | Outcome.raise _ => none
      let r4 := m.read_schema env.getLatestResult
      if pyTruthy version then
        let r5 := m.set_schema_version_checkpoint (version.getD 0) env.putMetadataResult
        ⟨[r1.call, r2.call, r3.call, r4.call, r5.call],
          r1.logs ++ r2.logs ++ r3.logs ++ r4.logs ++ r5.logs, none, version⟩
      else
        ⟨[r1.call, r2.call, r3.call, r4.call],
          r1.logs ++ r2.logs ++ r3.logs ++ r4.logs, none, version⟩

/-- Whether a collaborator call is the metadata update behind `setCheckpoint`. -/
def isPutMetadata : GlueCall → Bool
  | GlueCall.putSchemaVersionMetadata _ _ _ _ => true
  | _ => false

/-- Whether a trace contains no metadata-update call. -/
def noPutMetadata (l : List GlueCall) : Bool :=
  l.all (fun c => !(isPutMetadata c))

/-- The value the Python caller receives from one `add_schema_version` call
(absent when the method raised, which it never does). -/
def returnedVersion (r : MethodResult (Option Nat)) : Option Nat :=
  match r.outcome with
  | Outcome.ret v => v
  | Outcome.raise _ => none

/-- `k` successive `add_schema_version` calls against the modelled service,
collecting the returned values in call order. -/
def registerSeq (m : GlueSchemaManager) : GlueState → Nat → GlueState × List (Option Nat)
  | s, 0 => (s, [])
  | s, k + 1 =>
    let p := m.add_schema_version_run s
    let rest := registerSeq m p.1 k
    (rest.1, returnedVersion p.2 :: rest.2)

/-- One operation of the modelled collaborator service (the five calls the
script can issue). -/
inductive GlueOp where
  | createRegistry (name : String)
  | createSchema (reg sch fmt compat defn : String)
  | registerVersion (reg sch defn : String)
  | getLatest (reg sch : String)
  | putMetadata (reg sch : String) (n : Nat) (kv : MetadataKeyValue)
deriving DecidableEq, Repr

/-- State transition of the modelled service under one operation. -/
def GlueState.applyOp : GlueState → GlueOp → GlueState
  | s, GlueOp.createRegistry name => (s.create_registry name).1
  | s, GlueOp.createSchema reg sch fmt compat defn =>
      (s.create_schema reg sch fmt compat defn).1
  | s, GlueOp.registerVersion reg sch defn =>
      (s.register_schema_version reg sch defn).1
  | s, GlueOp.getLatest _ _ => s
  | s, GlueOp.putMetadata reg sch n kv =>
      (s.put_schema_version_metadata reg sch n kv).1

/-! ### Helper lemmas about the modelled service -/

theorem mem_versionsOf {s : GlueState} {reg sch : String} {w : SchemaVersion} :
    w ∈ versionsOf s reg sch ↔
      w ∈ s.versions ∧ w.registryName = reg ∧ w.schemaName = sch := by
  simp [versionsOf, List.mem_filter]

theorem le_maxVersionNumber {l : List SchemaVersion} {w : SchemaVersion}
    (h : w ∈ l) : w.versionNumber ≤ maxVersionNumber l := by
  induction l with
  | nil => cases h
  | cons v vs ih =>
    rcases List.mem_cons.mp h with rfl | hmem
    · exact Nat.le_max_left _ _
    · exact le_trans (ih hmem) (Nat.le_max_right _ _)

theorem latestVersion_mem {l : List SchemaVersion} {w : SchemaVersion}
    (h : latestVersion l = some w) : w ∈ l := by
  induction l with
  | nil => simp [latestVersion] at h
  | cons v vs ih =>
    simp only [latestVersion] at h
    split at h
    · injection h with h
      subst h
      exact List.mem_cons_self _ _
    · rename_i u hv
      split at h
      · injection h with h
        subst h
        exact List.mem_cons_of_mem _ (ih hv)
      · injection h with h
        subst h
        exact List.mem_cons_self _ _

theorem latestVersion_cons_of_gt {l : List SchemaVersion} {v : SchemaVersion}
    (h : ∀ u ∈ l, u.versionNumber < v.versionNumber) :
    latestVersion (v :: l) = some v := by
  simp only [latestVersion]
  split
  · rfl
  · rename_i u hv
    rw [if_neg (Nat.not_lt.mpr (Nat.le_of_lt (h u (latestVersion_mem hv))))]

theorem versionsOf_register (s : GlueState) (reg sch d : String) :
    versionsOf (s.register_schema_version reg sch d).1 reg sch =
      ⟨reg, sch, maxVersionNumber (versionsOf s reg sch) + 1, d, []⟩ ::
        versionsOf s reg sch := by
  simp [GlueState.register_schema_version, versionsOf]

theorem maxVersionNumber_register (s : GlueState) (reg sch d : String) :
    maxVersionNumber (versionsOf (s.register_schema_version reg sch d).1 reg sch) =
      maxVersionNumber (versionsOf s reg sch) + 1 := by
  rw [versionsOf_register]
  show max (maxVersionNumber (versionsOf s reg sch) + 1) _ = _
  exact Nat.max_eq_left (Nat.le_succ _)

theorem hasVersion_exists {s : GlueState} {reg sch : String} {n : Nat}
    (h : hasVersion s reg sch n = true) :
    ∃ v ∈ s.versions, v.registryName = reg ∧ v.schemaName = sch ∧
      v.versionNumber = n := by
  rcases List.any_eq_true.mp h with ⟨v, hv, hn⟩
  rcases mem_versionsOf.mp hv with ⟨hmem, hr, hs⟩
  exact ⟨v, hmem, hr, hs, by simpa using hn⟩

theorem put_metadata_attaches {s : GlueState} {reg sch : String} {n : Nat}
    (kv : MetadataKeyValue) (h : hasVersion s reg sch n = true) :
    ∃ w ∈ (s.put_schema_version_metadata reg sch n kv).1.versions,
      w.registryName = reg ∧ w.schemaName = sch ∧ w.versionNumber = n ∧
        (kv.MetadataKey, kv.MetadataValue) ∈ w.metadata := by
  rcases hasVersion_exists h with ⟨v, hmem, hr, hs, hn⟩
  rw [GlueState.put_schema_version_metadata, if_pos h]
  refine ⟨_, List.mem_map_of_mem _ hmem, ?_⟩
  simp [hr, hs, hn]

theorem put_metadata_preserves_untargeted {s : GlueState} {reg sch : String}
    {n : Nat} {kv : MetadataKeyValue} {w : SchemaVersion}
    (hmem : w ∈ s.versions) (hne : w.versionNumber ≠ n) :
    w ∈ (s.put_schema_version_metadata reg sch n kv).1.versions := by
  rw [GlueState.put_schema_version_metadata]
  by_cases h : hasVersion s reg sch n
  · rw [if_pos h]
    have h2 := List.mem_map_of_mem (fun v : SchemaVersion =>
      if v.registryName == reg && v.schemaName == sch && v.versionNumber == n then
        { v with metadata := (kv.MetadataKey, kv.MetadataValue) :: v.metadata }
      else v) hmem
    simpa [hne] using h2
  · rw [if_neg h]
    exact hmem

theorem put_metadata_preserves_fields {s : GlueState} {reg sch : String}
    {n : Nat} {kv : MetadataKeyValue} {w : SchemaVersion}
    (hmem : w ∈ s.versions) :
    ∃ w2 ∈ (s.put_schema_version_metadata reg sch n kv).1.versions,
      w2.registryName = w.registryName ∧ w2.schemaName = w.schemaName ∧
        w2.versionNumber = w.versionNumber ∧ w2.definition = w.definition := by
  rw [GlueState.put_schema_version_metadata]
  by_cases h : hasVersion s reg sch n
  · rw [if_pos h]
    by_cases hcond : (w.registryName == reg && w.schemaName == sch &&
        w.versionNumber == n) = true
    · exact ⟨_, List.mem_map_of_mem _ hmem, by simp [hcond]⟩
    · exact ⟨_, List.mem_map_of_mem _ hmem, by simp [hcond]⟩
  · rw [if_neg h]
    exact ⟨w, hmem, rfl, rfl, rfl, rfl⟩

theorem registerSeq_eq (m : GlueSchemaManager) (k : Nat) :
    ∀ s : GlueState,
      (registerSeq m s k).2 = (List.range k).map
        (fun i =>
          some (maxVersionNumber (versionsOf s m.registry_name m.schema_name) + 1 + i)) := by
  induction k with
  | zero => intro s; rfl
  | succ k ih =>
    intro s
    show returnedVersion (m.add_schema_version_run s).2 ::
        (registerSeq m (m.add_schema_version_run s).1 k).2 =
      (List.range (k + 1)).map
        (fun i =>
          some (maxVersionNumber (versionsOf s m.registry_name m.schema_name) + 1 + i))
    rw [ih, List.range_succ_eq_map, List.map_cons, List.map_map]
    have hstate : maxVersionNumber
        (versionsOf (m.add_schema_version_run s).1 m.registry_name m.schema_name) =
        maxVersionNumber (versionsOf s m.registry_name m.schema_name) + 1 :=
      maxVersionNumber_register s m.registry_name m.schema_name m.schema_definition
    rw [hstate]
    congr 1
    refine List.map_congr_left fun i _ => ?_
    exact congrArg some (by omega)

theorem create_registry_run_mem (m : GlueSchemaManager) (s : GlueState) :
    m.registry_name ∈ ((m.create_registry_run s).1).registries := by
  rw [GlueSchemaManager.create_registry_run, GlueState.create_registry]
  by_cases h : m.registry_name ∈ s.registries
  · rw [if_pos h]
    exact h
  · rw [if_neg h]
    exact List.mem_cons_self _ _

theorem create_schema_run_hasSchema (m : GlueSchemaManager) (s : GlueState) :
    hasSchema ((m.create_schema_run s).1) m.registry_name m.schema_name = true := by
  rw [GlueSchemaManager.create_schema_run, GlueState.create_schema]
  by_cases h : hasSchema s m.registry_name m.schema_name
  · rw [if_pos h]
    exact h
  · rw [if_neg h]
    simp [hasSchema]

/-! ### Claim theorems -/

/-- C2: for every input, `add_schema_version` returns the version number from
the registry response when the call succeeds; on any collaborator-reported
error it prints the error and returns `None` without re-raising. -/
theorem add_schema_version_success_and_error_contract
    (m : GlueSchemaManager) (n : Nat) (e : ClientError) :
    (m.add_schema_version (GlueResult.ok n)).outcome = Outcome.ret (some n) ∧
    (m.add_schema_version (GlueResult.err e)).outcome = Outcome.ret none ∧
    (m.add_schema_version (GlueResult.err e)).logs =
      ["Error adding schema version: " ++ errString e] :=
  ⟨rfl, rfl, rfl⟩

/-- C3: for every collaborator error, `create_registry_if_not_exists` and
`create_schema_if_not_exists` re-raise the exception unless its error code is
`AlreadyExistsException`, which is caught and treated as success. -/
theorem ensure_ops_error_classification (m : GlueSchemaManager) (e : ClientError) :
    (e.code ≠ "AlreadyExistsException" →
      (m.create_registry_if_not_exists (GlueResult.err e)).outcome = Outcome.raise e ∧
      (m.create_schema_if_not_exists (GlueResult.err e)).outcome = Outcome.raise e) ∧
    (e.code = "AlreadyExistsException" →
      (m.create_registry_if_not_exists (GlueResult.err e)).outcome = Outcome.ret () ∧
      (m.create_schema_if_not_exists (GlueResult.err e)).outcome = Outcome.ret ()) := by
  constructor
  · intro h
    exact ⟨by simp [GlueSchemaManager.create_registry_if_not_exists, h],
      by simp [GlueSchemaManager.create_schema_if_not_exists, h]⟩
  · intro h
    exact ⟨by simp [GlueSchemaManager.create_registry_if_not_exists, h],
      by simp [GlueSchemaManager.create_schema_if_not_exists, h]⟩

/-- C3 witness: a non-AlreadyExists error is re-raised, an AlreadyExists error
is swallowed, at concrete inputs. -/
theorem ensure_ops_error_classification_witness :
    ((⟨"r", "s", "AVRO", "d"⟩ : GlueSchemaManager).create_registry_if_not_exists
        (GlueResult.err ⟨"InternalServiceException"⟩)).outcome =
      Outcome.raise ⟨"InternalServiceException"⟩ ∧
    ((⟨"r", "s", "AVRO", "d"⟩ : GlueSchemaManager).create_schema_if_not_exists
        (GlueResult.err ⟨"AlreadyExistsException"⟩)).outcome = Outcome.ret () :=
  ⟨((ensure_ops_error_classification ⟨"r", "s", "AVRO", "d"⟩
      ⟨"InternalServiceException"⟩).1 (by decide)).1,
    ((ensure_ops_error_classification ⟨"r", "s", "AVRO", "d"⟩
      ⟨"AlreadyExistsException"⟩).2 rfl).2⟩

/-- C10: `set_schema_version_checkpoint v` issues the same collaborator call as
`update_schema_version_metadata v {Checkpoint: true}`, produces the same
outcome on every collaborator result, and prints the same number of lines
(the messages themselves differ). -/
theorem set_checkpoint_refines_update_metadata
    (m : GlueSchemaManager) (v : Nat) (r : GlueResult Unit) :
    (m.set_schema_version_checkpoint v r).call =
      (m.update_schema_version_metadata v ⟨"Checkpoint", "true"⟩ r).call ∧
    (m.set_schema_version_checkpoint v r).outcome =
      (m.update_schema_version_metadata v ⟨"Checkpoint", "true"⟩ r).outcome ∧
    (m.set_schema_version_checkpoint v r).logs.length =
      (m.update_schema_version_metadata v ⟨"Checkpoint", "true"⟩ r).logs.length := by
  refine ⟨rfl, ?_, ?_⟩ <;> cases r <;> rfl

/-- C4: running `create_registry_if_not_exists` twice in succession, or
`create_schema_if_not_exists` twice in succession, is never fatal: the second
call receives the AlreadyExists error from the service, swallows it, and
returns normally. -/
theorem ensure_twice_second_call_succeeds (m : GlueSchemaManager) (s : GlueState) :
    ((m.create_registry_run s).1.create_registry m.registry_name).2 =
      GlueResult.err ⟨"AlreadyExistsException"⟩ ∧
    (m.create_registry_run (m.create_registry_run s).1).2.outcome = Outcome.ret () ∧
    ((m.create_schema_run s).1.create_schema m.registry_name m.schema_name
        m.data_format "FORWARD" m.schema_definition).2 =
      GlueResult.err ⟨"AlreadyExistsException"⟩ ∧
    (m.create_schema_run (m.create_schema_run s).1).2.outcome = Outcome.ret () := by
  have hr := create_registry_run_mem m s
  have hs := create_schema_run_hasSchema m s
  have hreg : ((m.create_registry_run s).1.create_registry m.registry_name).2 =
      GlueResult.err ⟨"AlreadyExistsException"⟩ := by
    rw [GlueState.create_registry, if_pos hr]
  have hsch : ((m.create_schema_run s).1.create_schema m.registry_name m.schema_name
      m.data_format "FORWARD" m.schema_definition).2 =
      GlueResult.err ⟨"AlreadyExistsException"⟩ := by
    rw [GlueState.create_schema, if_pos hs]
  refine ⟨hreg, ?_, hsch, ?_⟩
  · show (m.create_registry_if_not_exists
      ((m.create_registry_run s).1.create_registry m.registry_name).2).outcome = _
    rw [hreg]
    rfl
  · show (m.create_schema_if_not_exists
      ((m.create_schema_run s).1.create_schema m.registry_name m.schema_name
        m.data_format "FORWARD" m.schema_definition).2).outcome = _
    rw [hsch]
    rfl

/-- C7: a sequence of successful `add_schema_version` calls on the same schema
returns version numbers that are positive and strictly increasing, each one
strictly greater than every previously returned number. -/
theorem register_versions_strictly_increasing (m : GlueSchemaManager)
    (s : GlueState) (k : Nat) :
    ∃ l : List Nat, (registerSeq m s k).2 = l.map some ∧
      l.Pairwise (fun a b => a < b) ∧ ∀ x ∈ l, 0 < x := by
  refine ⟨(List.range k).map
    (fun i => maxVersionNumber (versionsOf s m.registry_name m.schema_name) + 1 + i),
    ?_, ?_, ?_⟩
  · rw [registerSeq_eq m k s, List.map_map]
    rfl
  · exact List.Pairwise.map _ (fun a b hab => by omega) (List.pairwise_lt_range k)
  · intro x hx
    rcases List.mem_map.mp hx with ⟨i, _, rfl⟩
    omega

/-- C8: no operation of the modelled service rewrites the definition of an
already-registered schema version: any version present before an operation is
still present afterwards with the same registry, schema, number and
definition. -/
theorem definitions_immutable_under_ops (s : GlueState) (op : GlueOp)
    (w : SchemaVersion) (hmem : w ∈ s.versions) :
    ∃ w2 ∈ (s.applyOp op).versions,
      w2.registryName = w.registryName ∧ w2.schemaName = w.schemaName ∧
        w2.versionNumber = w.versionNumber ∧ w2.definition = w.definition := by
  cases op with
  | createRegistry name =>
    refine ⟨w, ?_, rfl, rfl, rfl, rfl⟩
    show w ∈ (s.create_registry name).1.versions
    rw [GlueState.create_registry]
    split
    · exact hmem
    · exact hmem
  | createSchema reg sch fmt compat defn =>
    refine ⟨w, ?_, rfl, rfl, rfl, rfl⟩
    show w ∈ (s.create_schema reg sch fmt compat defn).1.versions
    rw [GlueState.create_schema]
    split
    · exact hmem
    · exact hmem
  | registerVersion reg sch defn =>
    exact ⟨w, List.mem_cons_of_mem _ hmem, rfl, rfl, rfl, rfl⟩
  | getLatest reg sch => exact ⟨w, hmem, rfl, rfl, rfl, rfl⟩
  | putMetadata reg sch n kv => exact put_metadata_preserves_fields hmem

/-- C8 witness: the invariant applied to a concrete state and a concrete
metadata-update operation. -/
theorem definitions_immutable_under_ops_witness :
    (⟨"r", "s", 1, "d", []⟩ : SchemaVersion) ∈
      (⟨["r"], [], [⟨"r", "s", 1, "d", []⟩]⟩ : GlueState).versions ∧
    ∃ w2 ∈ ((⟨["r"], [], [⟨"r", "s", 1, "d", []⟩]⟩ : GlueState).applyOp
        (GlueOp.putMetadata "r" "s" 1 ⟨"k", "v"⟩)).versions,
      w2.registryName = "r" ∧ w2.schemaName = "s" ∧
        w2.versionNumber = 1 ∧ w2.definition = "d" :=
  ⟨by decide, definitions_immutable_under_ops ⟨["r"], [], [⟨"r", "s", 1, "d", []⟩]⟩
    (GlueOp.putMetadata "r" "s" 1 ⟨"k", "v"⟩) ⟨"r", "s", 1, "d", []⟩ (by decide)⟩

/-- C5: `set_schema_version_checkpoint` swallows and prints every collaborator
error without raising; against the modelled service it attaches the pair
("Checkpoint", "true") to the targeted version when that version exists, and
when the version was never registered the service error is printed, nothing
is raised, and the state is unchanged. -/
theorem set_checkpoint_contract (m : GlueSchemaManager) (s : GlueState)
    (v : Nat) (e : ClientError) :
    (m.set_schema_version_checkpoint v (GlueResult.err e)).outcome = Outcome.ret () ∧
    (m.set_schema_version_checkpoint v (GlueResult.err e)).logs =
      ["Error setting schema version checkpoint: " ++ errString e] ∧
    (hasVersion s m.registry_name m.schema_name v = true →
      ∃ w ∈ (m.set_schema_version_checkpoint_run s v).1.versions,
        w.registryName = m.registry_name ∧ w.schemaName = m.schema_name ∧
          w.versionNumber = v ∧ ("Checkpoint", "true") ∈ w.metadata) ∧
    (hasVersion s m.registry_name m.schema_name v = false →
      (m.set_schema_version_checkpoint_run s v).2.outcome = Outcome.ret () ∧
      (m.set_schema_version_checkpoint_run s v).2.logs =
        ["Error setting schema version checkpoint: " ++
          errString ⟨"EntityNotFoundException"⟩] ∧
      (m.set_schema_version_checkpoint_run s v).1 = s) := by
  refine ⟨rfl, rfl, ?_, ?_⟩
  · intro h
    exact put_metadata_attaches ⟨"Checkpoint", "true"⟩ h
  · intro h
    have hput : s.put_schema_version_metadata m.registry_name m.schema_name v
        ⟨"Checkpoint", "true"⟩ = (s, GlueResult.err ⟨"EntityNotFoundException"⟩) := by
      rw [GlueState.put_schema_version_metadata, if_neg (by simp [h])]
    refine ⟨?_, ?_, ?_⟩
    · show (m.set_schema_version_checkpoint v
        (s.put_schema_version_metadata m.registry_name m.schema_name v
          ⟨"Checkpoint", "true"⟩).2).outcome = _
      rw [hput]
      rfl
    · show (m.set_schema_version_checkpoint v
        (s.put_schema_version_metadata m.registry_name m.schema_name v
          ⟨"Checkpoint", "true"⟩).2).logs = _
      rw [hput]
      rfl
    · show (s.put_schema_version_metadata m.registry_name m.schema_name v
        ⟨"Checkpoint", "true"⟩).1 = s
      rw [hput]

/-- C5 witness: checkpointing an existing version attaches the tag, and
checkpointing a never-registered version number yields a swallowed error, at
concrete inputs. -/
theorem set_checkpoint_contract_witness :
    hasVersion ⟨["r"], [], [⟨"r", "s", 1, "d", []⟩]⟩ "r" "s" 1 = true ∧
    (∃ w ∈ ((⟨"r", "s", "AVRO", "d"⟩ : GlueSchemaManager).set_schema_version_checkpoint_run
        ⟨["r"], [], [⟨"r", "s", 1, "d", []⟩]⟩ 1).1.versions,
      w.registryName = "r" ∧ w.schemaName = "s" ∧ w.versionNumber = 1 ∧
        ("Checkpoint", "true") ∈ w.metadata) ∧
    hasVersion ⟨["r"], [], [⟨"r", "s", 1, "d", []⟩]⟩ "r" "s" 2 = false ∧
    ((⟨"r", "s", "AVRO", "d"⟩ : GlueSchemaManager).set_schema_version_checkpoint_run
        ⟨["r"], [], [⟨"r", "s", 1, "d", []⟩]⟩ 2).2.outcome = Outcome.ret () :=
  ⟨by decide,
    (set_checkpoint_contract ⟨"r", "s", "AVRO", "d"⟩
      ⟨["r"], [], [⟨"r", "s", 1, "d", []⟩]⟩ 1 ⟨"E"⟩).2.2.1 (by decide),
    by decide,
    ((set_checkpoint_contract ⟨"r", "s", "AVRO", "d"⟩
      ⟨["r"], [], [⟨"r", "s", 1, "d", []⟩]⟩ 2 ⟨"E"⟩).2.2.2 (by decide)).1⟩

/-- C9: checkpointing a second, distinct version leaves the first version's
checkpoint metadata in place: only the targeted version's metadata changes. -/
theorem checkpoint_frame_preserves_prior (m : GlueSchemaManager) (s : GlueState)
    (v1 v2 : Nat) (hne : v1 ≠ v2)
    (h1 : hasVersion s m.registry_name m.schema_name v1 = true) :
    ∃ w ∈ ((m.set_schema_version_checkpoint_run
        (m.set_schema_version_checkpoint_run s v1).1 v2).1).versions,
      w.registryName = m.registry_name ∧ w.schemaName = m.schema_name ∧
        w.versionNumber = v1 ∧ ("Checkpoint", "true") ∈ w.metadata := by
  rcases put_metadata_attaches (⟨"Checkpoint", "true"⟩ : MetadataKeyValue) h1 with
    ⟨w, hw, hr, hs, hn, hmeta⟩
  have hw2 : w ∈ ((m.set_schema_version_checkpoint_run s v1).1.put_schema_version_metadata
      m.registry_name m.schema_name v2 ⟨"Checkpoint", "true"⟩).1.versions :=
    put_metadata_preserves_untargeted hw (by rw [hn]; exact hne)
  exact ⟨w, hw2, hr, hs, hn, hmeta⟩

/-- C9 witness: the frame property at a concrete state holding version 1, with
a second checkpoint call on version 2. -/
theorem checkpoint_frame_preserves_prior_witness :
    (1 : Nat) ≠ 2 ∧
    hasVersion ⟨["r"], [], [⟨"r", "s", 1, "d", []⟩]⟩ "r" "s" 1 = true ∧
    ∃ w ∈ (((⟨"r", "s", "AVRO", "d"⟩ : GlueSchemaManager).set_schema_version_checkpoint_run
        ((⟨"r", "s", "AVRO", "d"⟩ : GlueSchemaManager).set_schema_version_checkpoint_run
          ⟨["r"], [], [⟨"r", "s", 1, "d", []⟩]⟩ 1).1 2).1).versions,
      w.registryName = "r" ∧ w.schemaName = "s" ∧ w.versionNumber = 1 ∧
        ("Checkpoint", "true") ∈ w.metadata :=
  ⟨by decide, by decide,
    checkpoint_frame_preserves_prior ⟨"r", "s", "AVRO", "d"⟩
      ⟨["r"], [], [⟨"r", "s", 1, "d", []⟩]⟩ 1 2 (by decide) (by decide)⟩

/-- A concrete manager configuration exercising the read-after-register
scenario. -/
def cexManager : GlueSchemaManager := ⟨"reg-a", "sch-a", "AVRO", "defn-a"⟩

/-- A concrete service state holding the registry and schema of `cexManager`
and no version yet. -/
def cexState : GlueState :=
  ⟨["reg-a"], [⟨"reg-a", "sch-a", "AVRO", "FORWARD"⟩], []⟩

/-- C1 counterexample: immediately after a successful `add_schema_version`
(returning version 1), `read_schema` does not return the just-registered
definition — the Python function returns `None` on every path; the definition
is only fetched and printed. -/
theorem read_after_register_returns_absent_cex :
    (cexManager.add_schema_version_run cexState).2.outcome = Outcome.ret (some 1) ∧
    (cexManager.read_schema_run
      (cexManager.add_schema_version_run cexState).1).outcome = Outcome.ret none ∧
    Outcome.ret (none : Option String) ≠
      Outcome.ret (some cexManager.schema_definition) := by
  refine ⟨by decide, by decide, by decide⟩

/-- C1 (amended): `read_schema`, called immediately after a successful
`add_schema_version`, fetches and prints a definition equal to the one just
registered but always returns an absent value; on a collaborator error it
prints the error and returns an absent value instead of raising. -/
theorem read_after_register_logs_registered_definition
    (m : GlueSchemaManager) (s : GlueState) (e : ClientError) :
    (m.add_schema_version_run s).2.outcome = Outcome.ret
      (some (maxVersionNumber (versionsOf s m.registry_name m.schema_name) + 1)) ∧
    (m.read_schema_run (m.add_schema_version_run s).1).logs =
      ["Retrieved schema \x27" ++ m.schema_name ++ "\x27:", m.schema_definition] ∧
    (m.read_schema_run (m.add_schema_version_run s).1).outcome = Outcome.ret none ∧
    (m.read_schema (GlueResult.err e)).outcome = Outcome.ret none ∧
    (m.read_schema (GlueResult.err e)).logs =
      ["Error reading schema: " ++ errString e] := by
  have hl : latestVersion
      (versionsOf (m.add_schema_version_run s).1 m.registry_name m.schema_name) =
      some ⟨m.registry_name, m.schema_name,
        maxVersionNumber (versionsOf s m.registry_name m.schema_name) + 1,
        m.schema_definition, []⟩ := by
    rw [show (m.add_schema_version_run s).1 =
      (s.register_schema_version m.registry_name m.schema_name m.schema_definition).1
      from rfl]
    rw [versionsOf_register]
    apply latestVersion_cons_of_gt
    intro u hu
    exact Nat.lt_succ_of_le (le_maxVersionNumber hu)
  have hget : (m.add_schema_version_run s).1.get_schema_version_latest
      m.registry_name m.schema_name = GlueResult.ok m.schema_definition := by
    rw [GlueState.get_schema_version_latest, hl]
  refine ⟨rfl, ?_, ?_, rfl, rfl⟩
  · show (m.read_schema ((m.add_schema_version_run s).1.get_schema_version_latest
      m.registry_name m.schema_name)).logs = _
    rw [hget]
    rfl
  · show (m.read_schema ((m.add_schema_version_run s).1.get_schema_version_latest
      m.registry_name m.schema_name)).outcome = _
    rw [hget]
    rfl

/-- C6: in the end-to-end `main`, the checkpoint call is never issued when
`add_schema_version` returned an absent value — the trace then contains no
`put_schema_version_metadata` call at all. -/
theorem main_no_checkpoint_without_version (env : GlueEnv) :
    (Glue_main env).version = none → noPutMetadata (Glue_main env).trace = true := by
  obtain ⟨r1, r2, r3, r4, r5⟩ := env
  intro h
  rcases r1 with u1 | e1 <;> rcases r2 with u2 | e2 <;> rcases r3 with n | e3 <;>
    simp only [Glue_main, GlueSchemaManager.create_registry_if_not_exists,
      GlueSchemaManager.create_schema_if_not_exists,
      GlueSchemaManager.add_schema_version, GlueSchemaManager.read_schema,
      GlueSchemaManager.set_schema_version_checkpoint, pyTruthy] at h ⊢ <;>
    split_ifs at h ⊢ <;>
    simp_all [noPutMetadata, isPutMetadata]

/-- C6 witness: with a failing register call (and every other call
succeeding), `main` binds no version and its trace contains no metadata-update
call. -/
theorem main_no_checkpoint_without_version_witness :
    (Glue_main ⟨GlueResult.ok (), GlueResult.ok (),
      GlueResult.err ⟨"InternalServiceException"⟩, GlueResult.ok "d",
      GlueResult.ok ()⟩).version = none ∧
    noPutMetadata (Glue_main ⟨GlueResult.ok (), GlueResult.ok (),
      GlueResult.err ⟨"InternalServiceException"⟩, GlueResult.ok "d",
      GlueResult.ok ()⟩).trace = true :=
  ⟨rfl, main_no_checkpoint_without_version
    ⟨GlueResult.ok (), GlueResult.ok (),
      GlueResult.err ⟨"InternalServiceException"⟩, GlueResult.ok "d",
      GlueResult.ok ()⟩ rfl⟩
